import Mathlib

/-!
Shallow embedding of the correlation / derived-metrics / filtering core of
`interactive_viewer.py` (a process-and-network snapshot viewer), together with
theorems settling the specification claims about it.

Modelling conventions:
* JSON records are Lean structures whose fields are `Option`-valued: `none`
  models an absent key (Python `dict.get` returning `None` or a default).
* Python string keys derived by `str(...)` are modelled by explicit
  stringification functions (`pid_str`, `conn_pid_key`, ...), matching the
  exact defaults used at each call site of the source.
* Python truthiness of ints (`not p.get('Ppid')`) and of stripped strings
  (`raddr.strip()`) is modelled explicitly where the source relies on it.
-/

/-- The optional `Authenticode` sub-record of a connection: only its `Trusted`
field is consulted by the viewer. -/
structure AuthenticodeInfo where
  trusted : Option String
deriving DecidableEq

/-- A network-connection record as loaded from newline-delimited JSON
(`self.network_data` items). `none` fields model absent JSON keys. -/
structure ConnectionRecord where
  pid : Option Int
  name : Option String
  type : Option String
  family : Option String
  status : Option String
  laddr : Option String
  lport : Option Int
  raddr : Option String
  rport : Option Int
  username : Option String
  timestamp : Option String
  authenticode : Option AuthenticodeInfo
deriving DecidableEq

/-- A process record as loaded from newline-delimited JSON
(`self.process_data` items). -/
structure ProcessRecord where
  pid : Option Int
  ppid : Option Int
  name : Option String
  username : Option String
  exe : Option String
  commandLine : Option String
  startTime : Option String
  callChain : Option String
deriving DecidableEq

/-- An all-absent connection record, used to build concrete test records. -/
def baseConn : ConnectionRecord :=
  ⟨none, none, none, none, none, none, none, none, none, none, none, none⟩

/-- Build a process record with only `Pid` and `Ppid` set, as in the
specification scenarios. -/
def mkProc (pid ppid : Option Int) : ProcessRecord :=
  ⟨pid, ppid, none, none, none, none, none, none⟩

/-- Connection trust classification, from `update_advanced_table`
(`auth = net.get('Authenticode')`; trusted iff
`auth and auth.get('Trusted') == 'trusted'`). An absent `Authenticode`
(Python falsy) gives `false`. -/
def conn_trusted (c : ConnectionRecord) : Bool :=
  match c.authenticode with
  | some a => a.trusted == some "trusted"
  | none => false

/-- Python truthiness of `s.strip()`: the stripped string is non-empty iff
`s` contains a character that is not whitespace. -/
def strip_nonempty (s : String) : Bool :=
  s.data.any (fun ch => !ch.isWhitespace)

/-- Python `s.startswith(pre)`, modelled over the character lists so that it
evaluates by kernel reduction. -/
def py_startswith (s pre : String) : Bool :=
  pre.data.isPrefixOf s.data

/-- Externality classification, from `populate_dashboard` and
`populate_security_analysis`:
`n.get('Status') == 'ESTAB' and n.get('Raddr', '').strip()
 and not n.get('Raddr', '').startswith('127.')
 and not n.get('Raddr', '').startswith('::1')`.
Note the truthiness test is on the STRIPPED remote address, while the
`startswith` checks run on the raw value. -/
def is_external (c : ConnectionRecord) : Bool :=
  (c.status == some "ESTAB")
    && strip_nonempty (c.raddr.getD "")
    && (!(py_startswith (c.raddr.getD "") "127."))
    && (!(py_startswith (c.raddr.getD "") "::1"))

/-- Externality as the specification words it: Status = ESTAB, Raddr
non-empty (no stripping), and no loopback prefix. Stated separately so the
code definition can be compared against it. -/
def is_external_spec (c : ConnectionRecord) : Prop :=
  c.status = some "ESTAB" ∧ c.raddr.getD "" ≠ "" ∧
    ¬ py_startswith (c.raddr.getD "") "127." ∧ ¬ py_startswith (c.raddr.getD "") "::1"

instance (c : ConnectionRecord) : Decidable (is_external_spec c) := by
  unfold is_external_spec; infer_instance

/-- A connection whose remote address is a single space: non-empty, hence
external by the letter of the claim, but stripped to empty by the code. -/
def blankRaddrConn : ConnectionRecord :=
  { baseConn with status := some "ESTAB", raddr := some " " }

/-- C5: a connection is classified trusted iff its Authenticode is present
with Trusted equal to the string "trusted"; absent Authenticode or any other
value classifies it untrusted. -/
theorem connection_trust_iff (c : ConnectionRecord) :
    (conn_trusted c = true ↔
      ∃ a, c.authenticode = some a ∧ a.trusted = some "trusted") ∧
    (conn_trusted c = false ↔
      c.authenticode = none ∨
        ∃ a, c.authenticode = some a ∧ a.trusted ≠ some "trusted") := by
  cases h : c.authenticode with
  | none => simp [conn_trusted, h]
  | some a => simp [conn_trusted, h]

/-- C7 counterexample: for Raddr " " (one space) the claimed
characterisation holds (Status ESTAB, Raddr non-empty, no loopback prefix),
yet the code does not classify the connection external, because it tests the
stripped remote address for emptiness. -/
theorem is_external_blank_raddr_cex :
    is_external_spec blankRaddrConn ∧ is_external blankRaddrConn = false := by
  constructor
  · decide
  · decide

/-- C7 (amended): a connection is external iff Status = "ESTAB", the remote
address is non-blank (contains a non-whitespace character, i.e. is non-empty
after stripping), and the raw remote address starts with neither "127." nor
"::1"; in particular Status "ESTAB" with Raddr "8.8.8.8" is external, while
Raddr "127.0.0.1" or an absent Raddr is not. -/
theorem is_external_iff (c : ConnectionRecord) :
    (is_external c = true ↔
      (c.status = some "ESTAB" ∧ strip_nonempty (c.raddr.getD "") = true ∧
        ¬ py_startswith (c.raddr.getD "") "127." ∧
        ¬ py_startswith (c.raddr.getD "") "::1")) ∧
    is_external { baseConn with status := some "ESTAB", raddr := some "8.8.8.8" } = true ∧
    is_external { baseConn with status := some "ESTAB", raddr := some "127.0.0.1" } = false ∧
    is_external { baseConn with status := some "ESTAB" } = false := by
  refine ⟨?_, by decide, by decide, by decide⟩
  simp [is_external, Bool.and_eq_true, and_assoc]

/-- Stringified connection Pid as used by the join
(`str(n.get('Pid'))`, no default): an absent Pid stringifies to "None". -/
def conn_pid_key (c : ConnectionRecord) : String :=
  match c.pid with
  | none => "None"
  | some n => toString n

/-- The connections associated with a pid key, from `add_node` and
`on_intel_tree_clicked`:
`[n for n in self.network_data if str(n.get('Pid')) == pid]`.
The process map is never consulted, so resolution failure of the pid cannot
change the result. -/
def connections_for (pid : String) (net : List ConnectionRecord) :
    List ConnectionRecord :=
  net.filter (fun n => conn_pid_key n == pid)

/-- C9: for every pid key, the associated connections are exactly the
sub-sequence of the input connections whose (stringified) Pid field equals
the key, in base-collection order; the definition never touches the process
index, so an unresolvable pid is not an error and changes nothing. -/
theorem connections_for_exact (net : List ConnectionRecord) (pid : String) :
    List.Sublist (connections_for pid net) net ∧
    ∀ c, c ∈ connections_for pid net ↔ c ∈ net ∧ conn_pid_key c = pid :=
  ⟨List.filter_sublist net, fun c => by
    simp [connections_for, List.mem_filter]⟩

/-- Process-level trust verdict, from `add_node` in `populate_process_tree`:
`sample_conn = next((n for n in conns), None)` (the FIRST associated
connection), `auth_info = sample_conn.get('Authenticode') if sample_conn
else None`, and the mark is "✓" iff
`auth_info and auth_info.get('Trusted') == 'trusted'`. -/
def process_trust_mark (net : List ConnectionRecord) (pid : String) : String :=
  match (connections_for pid net).head? with
  | none => "✗"
  | some c =>
    match c.authenticode with
    | some a => if a.trusted == some "trusted" then "✓" else "✗"
    | none => "✗"

/-- C6: the process-level verdict depends only on the first associated
connection: it is "✗" exactly when the process has no associated connection
or that first connection is classified untrusted, and any snapshot with the
same first associated connection gets the same verdict (later connections
never matter). -/
theorem process_trust_first_connection (net : List ConnectionRecord)
    (pid : String) :
    (process_trust_mark net pid = "✗" ↔
      ((connections_for pid net).head? = none ∨
        ∃ c, (connections_for pid net).head? = some c ∧
          conn_trusted c = false)) ∧
    (∀ net2 : List ConnectionRecord,
      (connections_for pid net).head? = (connections_for pid net2).head? →
      process_trust_mark net pid = process_trust_mark net2 pid) := by
  have hne : ("✓" : String) ≠ "✗" := by decide
  constructor
  · cases hh : (connections_for pid net).head? with
    | none => simp [process_trust_mark, hh]
    | some c =>
      cases ha : c.authenticode with
      | none => simp [process_trust_mark, hh, conn_trusted, ha]
      | some a =>
        cases hb : (a.trusted == some "trusted") with
        | true => simp [process_trust_mark, hh, conn_trusted, ha, hb, hne]
        | false => simp [process_trust_mark, hh, conn_trusted, ha, hb]
  · intro net2 h
    unfold process_trust_mark
    rw [h]

/-- A connection on pid 1 carrying a trusted Authenticode. -/
def trustedConn1 : ConnectionRecord :=
  { baseConn with pid := some 1, authenticode := some ⟨some "trusted"⟩ }

/-- A connection on pid 1 with no Authenticode (untrusted). -/
def untrustedConn1 : ConnectionRecord :=
  { baseConn with pid := some 1 }

theorem process_trust_first_connection_witness :
    (connections_for "1" [untrustedConn1, trustedConn1]).head?
        = (connections_for "1" [untrustedConn1]).head? ∧
      process_trust_mark [untrustedConn1, trustedConn1] "1"
        = process_trust_mark [untrustedConn1] "1" :=
  ⟨by decide,
    (process_trust_first_connection [untrustedConn1, trustedConn1] "1").2
      [untrustedConn1] (by decide)⟩

/-- Stringified process Pid: `str(p.get('Pid', ''))` (absent key gives ""). -/
def pid_str (p : ProcessRecord) : String :=
  match p.pid with
  | none => ""
  | some n => toString n

/-- Stringified process Ppid: `str(proc.get('Ppid', ''))`. -/
def ppid_str (p : ProcessRecord) : String :=
  match p.ppid with
  | none => ""
  | some n => toString n

/-- Python truthiness of the raw Ppid value (`not p.get('Ppid')`): absent or
zero is falsy. -/
def ppid_int_truthy (p : ProcessRecord) : Bool :=
  match p.ppid with
  | none => false
  | some n => n != 0

/-- `all_pids = set(str(p.get('Pid', '')) for p in self.process_data)`;
modelled as the list of stringified pids (only membership is used). -/
def all_pids (procs : List ProcessRecord) : List String :=
  procs.map pid_str

/-- The root test of `populate_process_tree`:
`str(p.get('Ppid', '')) not in all_pids or not p.get('Ppid')`. -/
def is_root_proc (procs : List ProcessRecord) (p : ProcessRecord) : Bool :=
  !((all_pids procs).elem (ppid_str p)) || !(ppid_int_truthy p)

/-- `root_procs = [p for p in self.process_data if ...]`. -/
def root_procs (procs : List ProcessRecord) : List ProcessRecord :=
  procs.filter (is_root_proc procs)

/-- The `children_map` lookup: the processes whose stringified Ppid is
truthy and equals the given key, in input order (the defaultdict is built in
one pass over `self.process_data`). -/
def children_of (procs : List ProcessRecord) (key : String) :
    List ProcessRecord :=
  procs.filter (fun q => (ppid_str q != "") && (ppid_str q == key))

/-- The pids placed by `add_node` below (and including) one process, in
preorder. The source recursion carries no visited set and no fuel; the fuel
parameter makes the embedding total, and the theorems quantify over it or
use visibly sufficient fuel. -/
def add_node_pids (procs : List ProcessRecord) :
    Nat → ProcessRecord → List String
  | 0, _ => []
  | fuel + 1, proc =>
      pid_str proc ::
        (children_of procs (pid_str proc)).foldr
          (fun c acc => add_node_pids procs fuel c ++ acc) []

/-- All pids placed in the forest: `for proc in root_procs: add_node(None,
proc)`, concatenated in order. -/
def forest_pids (procs : List ProcessRecord) (fuel : Nat) : List String :=
  (root_procs procs).foldr (fun p acc => add_node_pids procs fuel p ++ acc) []

/-- Two processes whose Ppids form a cycle; neither is a root. -/
def cycleProcs : List ProcessRecord :=
  [mkProc (some 2) (some 3), mkProc (some 3) (some 2)]

/-- Process list in which two records share Pid 1, making Pid 2 reachable
from two parents. -/
def dupPidProcs : List ProcessRecord :=
  [mkProc (some 1) (some 0), mkProc (some 2) (some 1), mkProc (some 1) (some 0)]

/-- C1: the construction has no visited-set guard, so it violates the
claimed invariant: for a Ppid cycle among non-root pids the forest is empty
at every fuel (pid 2 is an input pid but is omitted), and with duplicate
Pid records a pid is placed under two parents (pid 2 appears twice). -/
theorem process_forest_cycle_and_duplicate_bug :
    (∀ fuel, forest_pids cycleProcs fuel = []) ∧
    "2" ∈ all_pids cycleProcs ∧
    List.count "2" (forest_pids dupPidProcs 5) = 2 := by
  refine ⟨?_, by decide, by decide⟩
  intro fuel
  have h : root_procs cycleProcs = [] := by decide
  simp [forest_pids, h]

/-- Membership in the root list, characterised: a process is placed as a
root iff it is a loaded process whose Ppid is absent, zero, or not the Pid
of any loaded process. -/
theorem root_mem_iff (procs : List ProcessRecord) (p : ProcessRecord) :
    p ∈ root_procs procs ↔
      p ∈ procs ∧
        (p.ppid = none ∨ p.ppid = some 0 ∨
          ∀ q ∈ procs, pid_str q ≠ ppid_str p) := by
  constructor
  · intro h
    obtain ⟨h1, h2⟩ := List.mem_filter.1 h
    refine ⟨h1, ?_⟩
    simp only [is_root_proc, Bool.or_eq_true, Bool.not_eq_true'] at h2
    rcases h2 with hc | ht
    · right; right
      intro q hq hemq
      have hmem : ppid_str p ∈ all_pids procs := List.mem_map.2 ⟨q, hq, hemq⟩
      have := List.elem_iff.2 hmem
      rw [this] at hc
      cases hc
    · cases hpp : p.ppid with
      | none => exact Or.inl rfl
      | some n =>
        simp only [ppid_int_truthy, hpp] at ht
        have : n = 0 := by simpa using ht
        exact Or.inr (Or.inl (by rw [this]))
  · rintro ⟨hp, hcase⟩
    apply List.mem_filter.2
    refine ⟨hp, ?_⟩
    simp only [is_root_proc, Bool.or_eq_true, Bool.not_eq_true']
    rcases hcase with h0 | h0 | h0
    · right; simp [ppid_int_truthy, h0]
    · right; simp [ppid_int_truthy, h0]
    · left
      cases he : (all_pids procs).elem (ppid_str p) with
      | false => rfl
      | true =>
        exfalso
        rcases List.mem_map.1 (List.elem_iff.1 he) with ⟨q, hq, hfq⟩
        exact h0 q hq hfq

/-- The three-process scenario of the specification. -/
def scenP1 : ProcessRecord := mkProc (some 1) (some 0)

def scenP2 : ProcessRecord := mkProc (some 2) (some 1)

def scenP3 : ProcessRecord := mkProc (some 3) (some 99)

def scenProcs : List ProcessRecord := [scenP1, scenP2, scenP3]

/-- C8: a process is placed as a root iff its Ppid is absent/zero or does
not occur as a Pid of any loaded process; on the scenario
[{Pid 1, Ppid 0}, {Pid 2, Ppid 1}, {Pid 3, Ppid 99}] the roots are exactly
Pid 1 and Pid 3, and Pid 2 is attached as the sole child of Pid 1. -/
theorem root_placement_iff :
    (∀ (procs : List ProcessRecord) (p : ProcessRecord),
      p ∈ root_procs procs ↔
        p ∈ procs ∧
          (p.ppid = none ∨ p.ppid = some 0 ∨
            ∀ q ∈ procs, pid_str q ≠ ppid_str p)) ∧
    root_procs scenProcs = [scenP1, scenP3] ∧
    children_of scenProcs "1" = [scenP2] ∧
    forest_pids scenProcs 5 = ["1", "2", "3"] :=
  ⟨root_mem_iff, by decide, by decide, by decide⟩

/-- The filter state of the advanced-table view: search line edit and the
three combo boxes, with their source default texts
("", "All Protocols", "All Status", "All Users"). -/
structure FilterSpec where
  searchText : String
  protocol : String
  status : String
  user : String
deriving DecidableEq

/-- All filter widgets at their defaults. -/
def defaultFilterSpec : FilterSpec :=
  ⟨"", "All Protocols", "All Status", "All Users"⟩

/-- Stringified connection Pid with the table default:
`pid = str(net.get('Pid', ''))` in `apply_table_filters`. -/
def table_pid_str (c : ConnectionRecord) : String :=
  match c.pid with
  | none => ""
  | some n => toString n

/-- `self.process_map.get(pid, {})`, with the map modelled as an
association list over stringified pids. -/
def lookup_proc (pm : List (String × ProcessRecord)) (k : String) :
    Option ProcessRecord :=
  (pm.find? (fun e => e.1 == k)).map (fun e => e.2)

/-- `net_user = proc.get('Username', net.get('Username', ''))`: the owning
process username when resolvable, else the connection username, else "". -/
def resolved_username (pm : List (String × ProcessRecord))
    (c : ConnectionRecord) : String :=
  match lookup_proc pm (table_pid_str c) with
  | some p =>
    match p.username with
    | some u => u
    | none => c.username.getD ""
  | none => c.username.getD ""

/-- Python `str.lower()` (ASCII behaviour), mapped over the character list
so that it evaluates by kernel reduction. -/
def py_lower (s : String) : String :=
  String.mk (s.data.map Char.toLower)

/-- Python substring membership over character lists (`sub in s`),
structurally recursive so that it evaluates by kernel reduction. -/
def py_in_list (sub : List Char) : List Char → Bool
  | [] => sub.isEmpty
  | c :: t => sub.isPrefixOf (c :: t) || py_in_list sub t

/-- Python `sub in s` on strings. -/
def py_in (sub s : String) : Bool :=
  py_in_list sub.data s.data

/-- The searchable text of a table row:
`f"{net.get('Name', '')} {pid} {net.get('Laddr', '')} {net.get('Raddr', '')}"`. -/
def searchable_text (c : ConnectionRecord) : String :=
  (c.name.getD "") ++ " " ++ table_pid_str c ++ " " ++
    (c.laddr.getD "") ++ " " ++ (c.raddr.getD "")

/-- The keep-condition of the `apply_table_filters` loop (the conjunction of
the four `continue` guards, negated). A `None` Type or Status never equals a
selected protocol or status, so such rows are skipped by a non-default
combo. -/
def passes_table_filters (fs : FilterSpec)
    (pm : List (String × ProcessRecord)) (c : ConnectionRecord) : Bool :=
  (fs.protocol == "All Protocols" ||
      (match c.type with | some t => t == fs.protocol | none => false))
    && (fs.status == "All Status" ||
      (match c.status with | some st => st == fs.status | none => false))
    && (fs.user == "All Users" || resolved_username pm c == fs.user)
    && (py_lower fs.searchText == "" ||
      py_in (py_lower fs.searchText) (py_lower (searchable_text c)))

/-- `apply_table_filters`: rebuild `self.filtered_data` by one pass over
`self.network_data`, appending the rows that pass every filter. The base
collection is read, never written. -/
def apply_table_filters (fs : FilterSpec)
    (pm : List (String × ProcessRecord)) (net : List ConnectionRecord) :
    List ConnectionRecord :=
  net.filter (passes_table_filters fs pm)

/-- C3: with every filter at its default the table filter returns the full
base collection in its original order; any fixed filter yields an
order-preserving sub-sequence of the base collection; and filtering is
idempotent, so repeated application of the same specification yields the
identical result (the embedding is a pure function of the snapshot, which
also models that the base collection is never mutated). -/
theorem apply_table_filters_laws (pm : List (String × ProcessRecord))
    (net : List ConnectionRecord) (fs : FilterSpec) :
    apply_table_filters defaultFilterSpec pm net = net ∧
    List.Sublist (apply_table_filters fs pm net) net ∧
    apply_table_filters fs pm (apply_table_filters fs pm net) =
      apply_table_filters fs pm net := by
  refine ⟨?_, List.filter_sublist net, ?_⟩
  · exact List.filter_eq_self.2 (fun c _ => rfl)
  · simp [apply_table_filters, List.filter_filter, Bool.and_self]

/-- The untrusted test shared by `populate_dashboard` and
`populate_security_analysis`:
`not n.get('Authenticode') or n.get('Authenticode', {}).get('Trusted') != 'trusted'`. -/
def conn_untrusted (c : ConnectionRecord) : Bool :=
  match c.authenticode with
  | none => true
  | some a => !(a.trusted == some "trusted")

/-- The dashboard "Unsigned/Untrusted" card value:
`sum(1 for n in self.network_data if ...)` — one per CONNECTION. -/
def dashboard_unsigned_count (net : List ConnectionRecord) : Nat :=
  (net.filter conn_untrusted).length

/-- The security tab "Unsigned" card value:
`len(set(n.get('Name') for n in unsigned))` — one per distinct NAME. -/
def security_unsigned_count (net : List ConnectionRecord) : Nat :=
  (((net.filter conn_untrusted).map (fun c => c.name)).dedup).length

/-- One untrusted connection record named "evil.exe". -/
def evilConn : ConnectionRecord :=
  { baseConn with pid := some 7, name := some "evil.exe" }

/-- Two untrusted connections owned by the same process name. -/
def twoConnSameName : List ConnectionRecord := [evilConn, evilConn]

/-- C2 counterexample: for an input in which one process name owns two
untrusted connections, the dashboard metric displays 2 (the connection
count), not 1 as the claim states. -/
theorem dashboard_unsigned_counts_connections_cex :
    dashboard_unsigned_count twoConnSameName = 2 ∧
    ¬ dashboard_unsigned_count twoConnSameName = 1 := by
  decide

/-- C2 (amended): the dashboard "Unsigned/Untrusted" card counts untrusted
CONNECTIONS, while the security tab counts untrusted processes by distinct
process name; the by-name count never exceeds the dashboard count, and on
the two-connections-one-name input the security count is 1 while the
dashboard shows 2. -/
theorem unsigned_metrics_split (net : List ConnectionRecord) :
    security_unsigned_count net ≤ dashboard_unsigned_count net ∧
    security_unsigned_count twoConnSameName = 1 ∧
    dashboard_unsigned_count twoConnSameName = 2 := by
  refine ⟨?_, by decide, by decide⟩
  have h1 := List.Sublist.length_le
    (List.dedup_sublist ((net.filter conn_untrusted).map (fun c => c.name)))
  simpa [security_unsigned_count, dashboard_unsigned_count] using h1

/-- The filter-relevant widget state of the viewer: the grid view and table
view filter fields, the active tab index (tab 1 is the Network Grid), and
the status-bar text. -/
structure ViewerState where
  gridSearch : String
  gridProtocol : String
  gridStatus : String
  tableSearch : String
  tableProtocol : String
  tableStatus : String
  tableUser : String
  currentTab : Nat
  statusMessage : String
deriving DecidableEq

/-- The `filter_by_process` signal handler `on_filter_by_process`:
`self.grid_search.setText(proc_name)`, regrid (display only), and a status
message. No table widget is touched. -/
def on_filter_by_process (procName : String) (s : ViewerState) : ViewerState :=
  { s with
      gridSearch := procName,
      statusMessage := "Filtered by process: " ++ procName }

/-- Publishing `filter_by_process`: every emitter site
(`on_tree_double_clicked`, `on_threat_clicked`,
`filter_by_selected_process`) synchronously runs the handler and then
activates tab 1, the Network Grid view. -/
def publish_filter_by_process (procName : String) (s : ViewerState) :
    ViewerState :=
  { on_filter_by_process procName s with currentTab := 1 }

/-- C10: handling a FilterByProcess event sets the grid text-search field to
the process name and makes the grid view the requested active tab, while
every filter field of the table consumer — and the other grid filter
fields — keeps its previous value. -/
theorem filter_by_process_effect (procName : String) (s : ViewerState) :
    (publish_filter_by_process procName s).gridSearch = procName ∧
    (publish_filter_by_process procName s).currentTab = 1 ∧
    (publish_filter_by_process procName s).tableSearch = s.tableSearch ∧
    (publish_filter_by_process procName s).tableProtocol = s.tableProtocol ∧
    (publish_filter_by_process procName s).tableStatus = s.tableStatus ∧
    (publish_filter_by_process procName s).tableUser = s.tableUser ∧
    (publish_filter_by_process procName s).gridProtocol = s.gridProtocol ∧
    (publish_filter_by_process procName s).gridStatus = s.gridStatus :=
  ⟨rfl, rfl, rfl, rfl, rfl, rfl, rfl, rfl⟩

/-- The documented zero-timestamp sentinel for an unknown StartTime. -/
def zero_sentinel : String := "0001-01-01T00:00:00Z"

/-- `calculate_uptime`. Timestamp parsing
(`datetime.fromisoformat(start_time_str.replace('Z', '+00:00'))`) is the
standard library of the host language, so it is abstracted as a `parse`
parameter returning the start instant in seconds, `none` on failure (the
try/except arm); `now` is the current instant in seconds. The arithmetic is
the Python `timedelta` normalisation: floor-divided days and a non-negative
seconds remainder. -/
def calculate_uptime (parse : String → Option Int) (now : Int)
    (s : String) : String :=
  if s = "" ∨ s = zero_sentinel then "N/A"
  else
    match parse s with
    | none => "N/A"
    | some start =>
      let delta := now - start
      let days := delta.fdiv 86400
      let rem := delta.fmod 86400
      let hours := rem.fdiv 3600
      let minutes := (rem.fmod 3600).fdiv 60
      if 0 < days then toString days ++ "d " ++ toString hours ++ "h"
      else if 0 < hours then toString hours ++ "h " ++ toString minutes ++ "m"
      else toString minutes ++ "m"

/-- C4: the uptime computation is total (the embedding is a total function;
the only Python exception source, timestamp parsing, is modelled by the
`parse` result). An empty, sentinel, or unparseable StartTime yields the
unknown marker "N/A"; otherwise — StartTime non-empty, not the sentinel,
and successfully parsed — the result is a human-scale bucket of the form
days+hours, hours+minutes, or minutes. -/
theorem calculate_uptime_total_shape (parse : String → Option Int)
    (now : Int) (s : String) :
    ((s = "" ∨ s = zero_sentinel ∨ parse s = none) →
      calculate_uptime parse now s = "N/A") ∧
    ((s ≠ "" ∧ s ≠ zero_sentinel ∧ ∃ start, parse s = some start) →
      ((∃ d h : Int,
          calculate_uptime parse now s = toString d ++ "d " ++ toString h ++ "h") ∨
        (∃ h m : Int,
          calculate_uptime parse now s = toString h ++ "h " ++ toString m ++ "m") ∨
        (∃ m : Int, calculate_uptime parse now s = toString m ++ "m"))) := by
  constructor
  · intro h
    unfold calculate_uptime
    by_cases hs : s = "" ∨ s = zero_sentinel
    · rw [if_pos hs]
    · rcases h with h1 | h2 | h3
      · exact absurd (Or.inl h1) hs
      · exact absurd (Or.inr h2) hs
      · rw [if_neg hs, h3]
  · rintro ⟨hs1, hs2, start, hp⟩
    have hs : ¬(s = "" ∨ s = zero_sentinel) := fun h => h.elim hs1 hs2
    unfold calculate_uptime
    rw [if_neg hs, hp]
    by_cases hd : 0 < (now - start).fdiv 86400
    · left
      exact ⟨(now - start).fdiv 86400, ((now - start).fmod 86400).fdiv 3600,
        by simp only [if_pos hd]⟩
    · by_cases hh : 0 < ((now - start).fmod 86400).fdiv 3600
      · right; left
        exact ⟨((now - start).fmod 86400).fdiv 3600,
          (((now - start).fmod 86400).fmod 3600).fdiv 60,
          by simp only [if_neg hd, if_pos hh]⟩
      · right; right
        exact ⟨(((now - start).fmod 86400).fmod 3600).fdiv 60,
          by simp only [if_neg hd, if_neg hh]⟩

theorem calculate_uptime_total_shape_witness :
    calculate_uptime (fun _ => some (0 : Int)) 0 zero_sentinel = "N/A" ∧
    ((∃ d h : Int,
        calculate_uptime (fun _ => some (0 : Int)) 7500 "2024-01-01T00:00:00Z"
          = toString d ++ "d " ++ toString h ++ "h") ∨
      (∃ h m : Int,
        calculate_uptime (fun _ => some (0 : Int)) 7500 "2024-01-01T00:00:00Z"
          = toString h ++ "h " ++ toString m ++ "m") ∨
      (∃ m : Int,
        calculate_uptime (fun _ => some (0 : Int)) 7500 "2024-01-01T00:00:00Z"
          = toString m ++ "m")) ∧
    calculate_uptime (fun _ => some (0 : Int)) 7500 "2024-01-01T00:00:00Z"
      = "2h 5m" :=
  ⟨(calculate_uptime_total_shape (fun _ => some 0) 0 zero_sentinel).1
      (Or.inr (Or.inl rfl)),
    (calculate_uptime_total_shape (fun _ => some 0) 7500
        "2024-01-01T00:00:00Z").2 ⟨by decide, by decide, 0, rfl⟩,
    by decide⟩
